import Mathlib

/-!
Verification of the sauerpod request handlers against their specification.

The definitions below are a shallow embedding of the Python sources:
`src/src/commonlayer/common.py` (shared types), `src/src/dispatcher/dispatcher.py`,
`src/src/commander/commander.py`, `src/src/downloader/downloader.py`,
`src/src/podcaster/podcaster.py`, `src/src/bouncer/bouncer.py`, and the
state-machine choice definitions in `src/sauerpod/sauerpod_logic.py` and
`src/sauerpod/sauerpod_short_lived.py`.

Modelling conventions:
* Python strings are Lean `String`s; Python-specific string operations
  (`str.startswith`, `str.endswith`, `str.split()`, slicing) are embedded as
  functions over `String.toList` so that they match Python's per-character
  semantics.
* The DynamoDB table is a list of `Episode` rows kept in ascending
  sort-key (`TimestampUtc`) order for a feed, which is the order DynamoDB
  `query` returns with `ScanIndexForward=True`; `ScanIndexForward=False`
  reverses it.
* External calls (pytube, S3, file system, clock) are supplied through an
  environment record whose fields return `Except String α`; `Except.error`
  models the call raising an exception.
* Each handler returns its Python `dict(status=..., message=...)` as a
  `HandlerResult` together with lists recording its side effects (telegram
  sends, bucket uploads and deletions, table puts).  An uncaught exception
  escaping a handler is modelled by an `Option.none` result.
-/

set_option maxHeartbeats 1000000
set_option maxRecDepth 100000

/-- The routing status enum of `common.py` (`class Status(Enum)`), with its five
members in source order. -/
inductive Status where
  | DOWNLOADER
  | PODCASTER
  | COMMANDER
  | FINISH
  | FAILURE
deriving DecidableEq, Repr

/-- Python `status.name` for the `Status` enum. -/
def Status.name : Status → String
  | .DOWNLOADER => "DOWNLOADER"
  | .PODCASTER => "PODCASTER"
  | .COMMANDER => "COMMANDER"
  | .FINISH => "FINISH"
  | .FAILURE => "FAILURE"

/-- The five status names handlers can emit, in enum order. -/
def statusNames : List String :=
  [Status.DOWNLOADER.name, Status.PODCASTER.name, Status.COMMANDER.name,
   Status.FINISH.name, Status.FAILURE.name]

/-- Python `text.startswith(pre)`: embedded over the character list. -/
def pyStartsWith (s pre : String) : Bool :=
  pre.toList.isPrefixOf s.toList

/-- Python `text.endswith(suf)`: embedded over the character list. -/
def pyEndsWith (s suf : String) : Bool :=
  suf.toList.isSuffixOf s.toList

/-- Helper for `pySplit`: walks the characters, accumulating the current
(reversed) word. -/
def pySplitAux : List Char → List Char → List String
  | [], [] => []
  | [], acc => [String.mk acc.reverse]
  | c :: cs, acc =>
    if c.isWhitespace then
      match acc with
      | [] => pySplitAux cs []
      | _ => String.mk acc.reverse :: pySplitAux cs []
    else pySplitAux cs (c :: acc)

/-- Python `s.split()` with no argument: split on runs of whitespace,
discarding empty fragments. -/
def pySplit (s : String) : List String :=
  pySplitAux s.toList []

/-- The namedtuple `Payload(sender_name, incoming_text, chat_id)` from
`common.py`. -/
structure Payload where
  sender_name : String
  incoming_text : String
  chat_id : String
deriving DecidableEq, Repr

/-- First value bound to a key in an association-list dict. -/
def lookupKey (m : List (String × String)) (k : String) : Option String :=
  match m with
  | [] => none
  | (k2, v) :: rest => if k2 = k then some v else lookupKey rest k

/-- Python `Payload(**event["message"])`: succeeds exactly when the dict has
the three field names as its keys and nothing else; any missing or extra key
raises `TypeError` (modelled as `none`). -/
def parsePayload (m : List (String × String)) : Option Payload :=
  match lookupKey m "sender_name", lookupKey m "incoming_text", lookupKey m "chat_id" with
  | some s, some t, some c => if m.length = 3 then some ⟨s, t, c⟩ else none
  | _, _, _ => none

/-- The `dict(status=status.name, message=event["message"])` value every
handler returns. -/
structure HandlerResult where
  status : String
  message : List (String × String)
deriving DecidableEq, Repr

/-- Builds the return dict of a handler from the final `status` variable. -/
def mkResult (st : Status) (msg : List (String × String)) : HandlerResult :=
  { status := st.name, message := msg }

/-- The telegram text sent on the generic exception path of every handler
(`f"... Error:\n\x7be\x7d"`). -/
def errorSend (e : String) : String :=
  "⚠️ Error:\n" ++ e

/-- `Dispatcher._is_video_url`. -/
def is_video_url (text : String) : Bool :=
  pyStartsWith text "https://youtu.be"
    || pyStartsWith text "https://www.youtube.com"
    || pyStartsWith text "https://youtube.com"

/-- `Dispatcher._is_command`. -/
def is_command (text : String) : Bool :=
  pyStartsWith text "/"

/-- The acknowledgement chat message the Dispatcher sends for unrecognised
text. -/
def dispatcherAck (p : Payload) : String :=
  "Hello " ++ p.sender_name ++ ", you said \x27" ++ p.incoming_text ++
    "\x27.\n\nI don\x27t know what to do with that."

/-- `Dispatcher.handle_event`: classifies the incoming text and returns the
status dict together with the list of telegram messages sent. -/
def dispatcherHandleEvent (msg : List (String × String)) :
    HandlerResult × List String :=
  match parsePayload msg with
  | some payload =>
    if is_video_url payload.incoming_text then
      (mkResult Status.DOWNLOADER msg, [])
    else if is_command payload.incoming_text then
      (mkResult Status.COMMANDER msg, [])
    else
      (mkResult Status.FINISH msg, [dispatcherAck payload])
  | none => (mkResult Status.FAILURE msg, [errorSend "TypeError"])

/-- C1: for every event whose message parses into a `Payload`,
`Dispatcher.handle_event` returns status DOWNLOADER exactly when the text
starts with one of the three video-site URL prefixes; otherwise it returns
COMMANDER exactly when the text starts with "/"; otherwise it returns FINISH
and sends only the acknowledgement chat message. -/
theorem dispatcher_routing (msg : List (String × String)) (p : Payload)
    (hp : parsePayload msg = some p) :
    ((dispatcherHandleEvent msg).1.status = Status.DOWNLOADER.name ↔
      (pyStartsWith p.incoming_text "https://youtu.be" = true ∨
        pyStartsWith p.incoming_text "https://www.youtube.com" = true ∨
        pyStartsWith p.incoming_text "https://youtube.com" = true)) ∧
    ((dispatcherHandleEvent msg).1.status = Status.COMMANDER.name ↔
      (is_video_url p.incoming_text = false ∧
        pyStartsWith p.incoming_text "/" = true)) ∧
    (is_video_url p.incoming_text = false → is_command p.incoming_text = false →
      (dispatcherHandleEvent msg).1.status = Status.FINISH.name ∧
      (dispatcherHandleEvent msg).2 = [dispatcherAck p]) := by
  cases h1 : pyStartsWith p.incoming_text "https://youtu.be" <;>
    cases h2 : pyStartsWith p.incoming_text "https://www.youtube.com" <;>
      cases h3 : pyStartsWith p.incoming_text "https://youtube.com" <;>
        cases h4 : pyStartsWith p.incoming_text "/" <;>
          simp_all [dispatcherHandleEvent, hp, is_video_url, is_command, mkResult,
            Status.name]

/-- Witness for `dispatcher_routing` at a concrete video-URL event. -/
theorem dispatcher_routing_witness :
    (dispatcherHandleEvent
        [("sender_name", "n"), ("incoming_text", "https://youtu.be/abc"), ("chat_id", "1")]
      ).1.status = Status.DOWNLOADER.name := by
  have h := dispatcher_routing
    [("sender_name", "n"), ("incoming_text", "https://youtu.be/abc"), ("chat_id", "1")]
    ⟨"n", "https://youtu.be/abc", "1"⟩ (by decide)
  exact h.1.mpr (Or.inl (by decide))

/-- One stored metadata row, with the attributes written by
`Downloader._create_cleansed_metadata` and read back by the Commander and
Podcaster.  `FeedId` is the partition key and `TimestampUtc` the sort key of
the DynamoDB table. -/
structure Episode where
  FeedId : String
  EpisodeId : String
  Title : String
  Author : String
  Description : String
  DurationInSeconds : Int
  Keywords : List String
  FileLengthInByte : Int
  BucketPathEpisode : String
  BucketPathThumbnail : String
  TimestampUtc : String
  TimestampRfc822 : String
deriving DecidableEq, Repr

/-- `Commander._query_episodes` (and the analogous queries elsewhere): a
DynamoDB `query` on `FeedId` returning the feed's rows in sort-key order;
the table list is kept ascending, `ascending = false` reverses it
(`ScanIndexForward`). -/
def queryEpisodes (table : List Episode) (feed_id : String) (ascending : Bool) :
    List Episode :=
  let items := table.filter (fun e => e.FeedId == feed_id)
  if ascending then items else items.reverse

/-- Zero-pads a number below ten, as in `datetime.timedelta.__str__`. -/
def pad2 (n : Int) : String :=
  if n < 10 then "0" ++ toString n else toString n

/-- Python `str(timedelta(seconds=n))`: days plus `H:MM:SS`, the seconds
normalised into `[0, 86400)`. -/
def timedeltaStr (totalSeconds : Int) : String :=
  let days := Int.ediv totalSeconds 86400
  let rem := Int.emod totalSeconds 86400
  let h := Int.ediv rem 3600
  let m := Int.ediv (Int.emod rem 3600) 60
  let s := Int.emod rem 60
  let base := toString h ++ ":" ++ pad2 m ++ ":" ++ pad2 s
  if days = 0 then base
  else
    toString days ++ (if days = 1 ∨ days = -1 then " day, " else " days, ") ++ base

/-- The title expression of `Commander._convert_to_line_item`:
`episode["Title"][:25] + ".."` when `len(episode["Title"]) > 27 and compact`,
else the stored title verbatim. -/
def lineItemTitle (title : String) (compact : Bool) : String :=
  if title.toList.length > 27 ∧ compact = true then
    String.mk (title.toList.take 25) ++ ".."
  else title

/-- `Commander._convert_to_line_item`.  `int(episode["TimestampUtc"])` raises
`ValueError` on a non-numeric string, modelled by `Except.error`. -/
def convertToLineItem (base_url : String) (episode : Episode) (now : Int)
    (compact : Bool) : Except String String :=
  match episode.TimestampUtc.toInt? with
  | none => .error "ValueError"
  | some ts =>
    let episode_link :=
      "<a href=\x27" ++ base_url ++ "/" ++ episode.BucketPathEpisode ++ "\x27>" ++
        episode.EpisodeId ++ "</a>"
    .ok ("* <i>" ++ lineItemTitle episode.Title compact ++ "</i> (" ++
      episode_link ++ ", <b>-" ++ timedeltaStr (now - ts) ++ "</b>) ")

/-- `Commander._cmd_list`: renders each episode of the feed (newest first)
as a line item — compact unless the command ends in "full" — and joins the
lines for the single telegram message. -/
def cmdListMessage (base_url : String) (table : List Episode)
    (command chat_id : String) (now : Int) : Except String String := do
  let items := queryEpisodes table chat_id false
  let lines ← items.mapM
    (fun e => convertToLineItem base_url e now (!(pyEndsWith command "full")))
  .ok (String.intercalate "\n" lines)

/-- `Commander._delete_episode`: looks for the feed's first row with the given
`EpisodeId`; if found, deletes the thumbnail and episode objects from the
bucket and the row from the table and reports success, else reports that the
episode was not found.  Returns the chat message, the table after the call and
the bucket keys deleted. -/
def deleteEpisode (table : List Episode) (chat_id episode_id : String) :
    String × List Episode × List String :=
  match (table.filter (fun e => e.FeedId == chat_id && e.EpisodeId == episode_id)).head? with
  | some episode =>
    ("Episode " ++ episode_id ++ " deleted.",
     table.filter (fun e =>
       !(e.FeedId == chat_id && e.TimestampUtc == episode.TimestampUtc &&
         e.EpisodeId == episode_id)),
     [episode.BucketPathThumbnail, episode.BucketPathEpisode])
  | none =>
    ("Couldn\x27t find episode <pre>" ++ episode_id ++
       "</pre> in database. Is this the right id?",
     table, [])

/-- `Commander._cmd_delete`: resolves the episode id ("/deletenewest" and
"/deleteoldest" via a query, "/delete id" from the second word), calls
`_delete_episode`, sends the resulting message, and returns `update_required`
together with the new table, bucket deletions and telegram sends.
`Except.error` models an `IndexError` escaping the method (only `ValueError`
is caught inside); note `update_required` is `True` whenever an id was
resolved, found or not. -/
def cmdDelete (table : List Episode) (command chat_id : String) :
    Except String (Bool × List Episode × List String × List String) :=
  match pySplit command with
  | [] => .error "IndexError"
  | command_text :: rest =>
    if command_text = "/deletenewest" then
      match (queryEpisodes table chat_id false).head? with
      | none => .error "IndexError"
      | some e =>
        let d := deleteEpisode table chat_id e.EpisodeId
        .ok (true, d.2.1, d.2.2, [d.1])
    else if command_text = "/deleteoldest" then
      match (queryEpisodes table chat_id true).head? with
      | none => .error "IndexError"
      | some e =>
        let d := deleteEpisode table chat_id e.EpisodeId
        .ok (true, d.2.1, d.2.2, [d.1])
    else
      match rest with
      | [i] =>
        let d := deleteEpisode table chat_id i
        .ok (true, d.2.1, d.2.2, [d.1])
      | _ =>
        .ok (false, table, [],
          ["I don\x27t understand \x27" ++ command ++ "\x27."])

/-- The `/help` text (`Commander._cmd_help`, after `textwrap.dedent`). -/
def helpText : String :=
  "I understand these commands:\n" ++
  "<pre> /help               </pre>This text.\n" ++
  "<pre> /list               </pre>List entries in database (compact layout).\n" ++
  "<pre> /listfull           </pre>List entries in database (full layout).\n" ++
  "<pre> /delete [id]        </pre>Delete entry from database.\n" ++
  "<pre> /deletenewest       </pre>Delete newest entry from database.\n" ++
  "<pre> /deleteoldest       </pre>Delete oldest entry from database.\n"

/-- What a Commander invocation produces: the returned dict, the table after
the call, the bucket keys deleted, and the telegram messages sent. -/
structure CommanderOutcome where
  result : HandlerResult
  table : List Episode
  bucketDeletes : List String
  sends : List String
deriving DecidableEq, Repr

/-- The `try` block of `Commander.handle_event`.  The Python `if`/`if`/`elif`
chain is equivalent to this nested conditional because the prefixes "/list",
"/delete" and "/help" are pairwise non-overlapping; a command matching none of
them leaves the local `status` unassigned, returned here as `Option.none`. -/
def commanderTry (base_url : String) (table : List Episode) (now : Int)
    (msg : List (String × String)) :
    Except String (Option Status × List Episode × List String × List String) :=
  match parsePayload msg with
  | none => .error "TypeError"
  | some payload =>
    let command := payload.incoming_text
    if pyStartsWith command "/list" then
      match cmdListMessage base_url table command payload.chat_id now with
      | .error e => .error e
      | .ok text => .ok (some Status.FINISH, table, [], [text])
    else if pyStartsWith command "/delete" then
      match cmdDelete table command payload.chat_id with
      | .error e => .error e
      | .ok (upd, t2, dels, sends) =>
        .ok (some (if upd then Status.PODCASTER else Status.FINISH), t2, dels, sends)
    else if pyStartsWith command "/help" then
      .ok (some Status.FINISH, table, [], [helpText])
    else
      .ok (none, table, [], [])

/-- `Commander.handle_event`.  An exception inside the `try` is caught and
degrades to a FAILURE dict; but when no command branch assigned `status`, the
`return dict(status=status.name, ...)` after the `try`/`except` raises
`UnboundLocalError` to the caller, modelled as `Option.none`. -/
def commanderHandleEvent (base_url : String) (table : List Episode) (now : Int)
    (msg : List (String × String)) : Option CommanderOutcome :=
  match commanderTry base_url table now msg with
  | .error e =>
    some { result := mkResult Status.FAILURE msg, table := table,
           bucketDeletes := [], sends := [errorSend e] }
  | .ok (some st, t2, dels, sends) =>
    some { result := mkResult st msg, table := t2, bucketDeletes := dels,
           sends := sends }
  | .ok (none, _, _, _) => none

/-- Two commands with incomparable literal prefixes cannot both prefix the
same text: used to resolve the `/list`-before-`/delete` branch order. -/
theorem pyStartsWith_excludes (s a b : String)
    (hab : ¬ (a.toList <+: b.toList)) (hba : ¬ (b.toList <+: a.toList))
    (h : pyStartsWith s a = true) : pyStartsWith s b = false := by
  by_contra hc
  rw [Bool.not_eq_false] at hc
  rw [pyStartsWith, List.isPrefixOf_iff_prefix] at h hc
  rcases List.prefix_or_prefix_of_prefix h hc with hd | hd
  · exact hab hd
  · exact hba hd

/-- A concrete stored episode used in concrete evaluations. -/
def epAbc : Episode :=
  { FeedId := "123456", EpisodeId := "abc", Title := "t", Author := "a",
    Description := "d", DurationInSeconds := 10, Keywords := [],
    FileLengthInByte := 1, BucketPathEpisode := "audio/123456/abc.mp4",
    BucketPathThumbnail := "audio/123456/abc_logo.jpg",
    TimestampUtc := "1644796800", TimestampRfc822 := "r" }

/-- A concrete Commander event message asking to delete an id that is not in
the store. -/
def msgDeleteXyz : List (String × String) :=
  [("sender_name", "n"), ("incoming_text", "/delete xyz"), ("chat_id", "123456")]

/-- C2 counterexample: with one stored episode "abc", the well-formed command
"/delete xyz" names an episode id that no stored episode has, yet
`Commander.handle_event` returns status PODCASTER, where the claim demands
FINISH (`update_required` is set regardless of whether the episode was
found). -/
theorem commander_delete_not_found_returns_podcaster :
    epAbc.EpisodeId ≠ "xyz" ∧
    (commanderHandleEvent "base" [epAbc] 0 msgDeleteXyz).map
        (fun o => o.result.status) = some Status.PODCASTER.name := by
  decide

/-- C2 (amended): whenever a delete command resolves to an episode id —
an explicit `/delete <id>` (two fragments), or `/deletenewest` /
`/deleteoldest` on a non-empty feed — `Commander.handle_event` returns status
PODCASTER whether or not the feed stores that episode id; a delete command
with bad syntax returns status FINISH after sending an "I don't understand"
message; and `/deletenewest` / `/deleteoldest` on an empty feed raise
`IndexError` inside the `try` and return status FAILURE, so FINISH arises
exactly on bad syntax. -/
theorem commander_delete_routing (base_url : String) (table : List Episode)
    (now : Int) (msg : List (String × String)) (p : Payload)
    (hp : parsePayload msg = some p)
    (hd : pyStartsWith p.incoming_text "/delete" = true) :
    (∀ c i, pySplit p.incoming_text = [c, i] → c ≠ "/deletenewest" →
      c ≠ "/deleteoldest" →
      commanderHandleEvent base_url table now msg =
        some { result := mkResult Status.PODCASTER msg,
               table := (deleteEpisode table p.chat_id i).2.1,
               bucketDeletes := (deleteEpisode table p.chat_id i).2.2,
               sends := [(deleteEpisode table p.chat_id i).1] }) ∧
    (∀ rest e, pySplit p.incoming_text = "/deletenewest" :: rest →
      (queryEpisodes table p.chat_id false).head? = some e →
      commanderHandleEvent base_url table now msg =
        some { result := mkResult Status.PODCASTER msg,
               table := (deleteEpisode table p.chat_id e.EpisodeId).2.1,
               bucketDeletes := (deleteEpisode table p.chat_id e.EpisodeId).2.2,
               sends := [(deleteEpisode table p.chat_id e.EpisodeId).1] }) ∧
    (∀ rest e, pySplit p.incoming_text = "/deleteoldest" :: rest →
      (queryEpisodes table p.chat_id true).head? = some e →
      commanderHandleEvent base_url table now msg =
        some { result := mkResult Status.PODCASTER msg,
               table := (deleteEpisode table p.chat_id e.EpisodeId).2.1,
               bucketDeletes := (deleteEpisode table p.chat_id e.EpisodeId).2.2,
               sends := [(deleteEpisode table p.chat_id e.EpisodeId).1] }) ∧
    (∀ c rest, pySplit p.incoming_text = c :: rest → c ≠ "/deletenewest" →
      c ≠ "/deleteoldest" → rest.length ≠ 1 →
      commanderHandleEvent base_url table now msg =
        some { result := mkResult Status.FINISH msg, table := table,
               bucketDeletes := [],
               sends := ["I don\x27t understand \x27" ++ p.incoming_text ++ "\x27."] }) ∧
    (∀ c rest, pySplit p.incoming_text = c :: rest →
      (c = "/deletenewest" ∨ c = "/deleteoldest") →
      queryEpisodes table p.chat_id true = [] →
      commanderHandleEvent base_url table now msg =
        some { result := mkResult Status.FAILURE msg, table := table,
               bucketDeletes := [], sends := [errorSend "IndexError"] }) := by
  have hlist : pyStartsWith p.incoming_text "/list" = false :=
    pyStartsWith_excludes p.incoming_text "/delete" "/list"
      (by decide) (by decide) hd
  refine ⟨?_, ?_, ?_, ?_, ?_⟩
  · intro c i hsplit hcn hco
    simp [commanderHandleEvent, commanderTry, hp, hlist, hd, cmdDelete, hsplit,
      hcn, hco]
  · intro rest e hsplit hq
    simp [commanderHandleEvent, commanderTry, hp, hlist, hd, cmdDelete, hsplit,
      hq]
  · intro rest e hsplit hq
    simp [commanderHandleEvent, commanderTry, hp, hlist, hd, cmdDelete, hsplit,
      hq]
  · intro c rest hsplit hcn hco hlen
    cases rest with
    | nil =>
      simp [commanderHandleEvent, commanderTry, hp, hlist, hd, cmdDelete, hsplit,
        hcn, hco]
    | cons i rest2 =>
      cases rest2 with
      | nil => exact absurd (by simp) hlen
      | cons j rest3 =>
        simp [commanderHandleEvent, commanderTry, hp, hlist, hd, cmdDelete, hsplit,
          hcn, hco]
  · intro c rest hsplit hor hq
    have hrev : queryEpisodes table p.chat_id false =
        (queryEpisodes table p.chat_id true).reverse := by
      simp [queryEpisodes]
    have hdesc : queryEpisodes table p.chat_id false = [] := by
      rw [hrev, hq]; rfl
    rcases hor with rfl | rfl
    · simp [commanderHandleEvent, commanderTry, hp, hlist, hd, cmdDelete, hsplit,
        hdesc]
    · simp [commanderHandleEvent, commanderTry, hp, hlist, hd, cmdDelete, hsplit,
        hq]

/-- A concrete Commander event message asking to delete the newest episode. -/
def msgDeleteNewest : List (String × String) :=
  [("sender_name", "n"), ("incoming_text", "/deletenewest"),
   ("chat_id", "123456")]

/-- Witness for `commander_delete_routing`: the concrete not-found explicit
delete and the concrete `/deletenewest` on a one-episode feed. -/
theorem commander_delete_routing_witness :
    (commanderHandleEvent "base" [epAbc] 0 msgDeleteXyz =
      some { result := mkResult Status.PODCASTER msgDeleteXyz,
             table := (deleteEpisode [epAbc] "123456" "xyz").2.1,
             bucketDeletes := (deleteEpisode [epAbc] "123456" "xyz").2.2,
             sends := [(deleteEpisode [epAbc] "123456" "xyz").1] }) ∧
    (commanderHandleEvent "base" [epAbc] 0 msgDeleteNewest =
      some { result := mkResult Status.PODCASTER msgDeleteNewest,
             table := (deleteEpisode [epAbc] "123456" epAbc.EpisodeId).2.1,
             bucketDeletes := (deleteEpisode [epAbc] "123456" epAbc.EpisodeId).2.2,
             sends := [(deleteEpisode [epAbc] "123456" epAbc.EpisodeId).1] }) := by
  constructor
  · exact (commander_delete_routing "base" [epAbc] 0 msgDeleteXyz
        ⟨"n", "/delete xyz", "123456"⟩ (by decide) (by decide)).1 "/delete" "xyz"
      (by decide) (by decide) (by decide)
  · exact (commander_delete_routing "base" [epAbc] 0 msgDeleteNewest
        ⟨"n", "/deletenewest", "123456"⟩ (by decide) (by decide)).2.1 [] epAbc
      (by decide) (by decide)

/-- C3: for the slash-command "/foo" — routed to the Commander by the
Dispatcher but matching none of /list, /delete*, /help — no branch of
`Commander.handle_event` assigns `status`, and the `return` after the
`try`/`except` raises `UnboundLocalError` to the caller instead of returning a
FAILURE dict. -/
theorem commander_unknown_command_raises :
    commanderHandleEvent "base" [] 0
      [("sender_name", "n"), ("incoming_text", "/foo"), ("chat_id", "1")] = none := by
  decide

/-- The namedtuple `VideoInformation` from `common.py`, as populated by
`Downloader._populate_video_information` from the pytube object. -/
structure VideoInformation where
  video_id : String
  title : String
  author : String
  description : String
  thumbnail_url : String
  duration_in_seconds : Int
  keywords : List String
  source_url : String
deriving DecidableEq, Repr

/-- The namedtuple `UploadInformation` from `common.py`, as built by
`Downloader._upload_to_s3`. -/
structure UploadInformation where
  path_to_episode : String
  path_to_thumbnail : String
  timestamp_utc : Int
  timestamp_rfc822 : String
  episode_size : Int
deriving DecidableEq, Repr

/-- The external world of the Downloader: pytube extraction, the audio and
thumbnail downloads to /tmp, the file-size stat, the S3 uploads, and the
clock read in `_upload_to_s3`.  `Except.error` models the call raising. -/
structure DownloadEnv where
  populate : String → Except String VideoInformation
  downloadAudio : VideoInformation → Except String String
  downloadThumbnail : VideoInformation → Except String String
  fileSize : String → Except String Int
  upload : String → String → Except String Unit
  nowTimestamp : Int
  nowRfc822 : String

/-- Python `os.path.basename`: the part after the final "/". -/
def basename (p : String) : String :=
  String.mk ((p.toList.reverse.takeWhile (fun c => c ≠ '/')).reverse)

/-- `Downloader._is_existing_video`: the `Items` of a query on `FeedId =
chat_id` filtered by `EpisodeId = video_id`. -/
def isExistingVideo (table : List Episode) (v : VideoInformation)
    (chat_id : String) : List Episode :=
  table.filter (fun e => e.FeedId == chat_id && e.EpisodeId == v.video_id)

/-- `Downloader._upload_to_s3`: uploads the audio and the thumbnail under
`audio/<chat_id>/` and returns the `UploadInformation` plus the list of
(local path, bucket path) uploads performed; an error carries the uploads
already performed before the exception. -/
def uploadToS3 (env : DownloadEnv) (chat_id audio_file_path thumbnail_file_path : String) :
    Except (String × List (String × String))
      (UploadInformation × List (String × String)) :=
  match env.fileSize audio_file_path with
  | .error e => .error (e, [])
  | .ok audio_file_size =>
    match env.upload audio_file_path
        ("audio/" ++ chat_id ++ "/" ++ basename audio_file_path) with
    | .error e => .error (e, [])
    | .ok _ =>
      match env.upload thumbnail_file_path
          ("audio/" ++ chat_id ++ "/" ++ basename thumbnail_file_path) with
      | .error e =>
        .error (e, [(audio_file_path,
          "audio/" ++ chat_id ++ "/" ++ basename audio_file_path)])
      | .ok _ =>
        .ok ({ path_to_episode :=
                 "audio/" ++ chat_id ++ "/" ++ basename audio_file_path,
               path_to_thumbnail :=
                 "audio/" ++ chat_id ++ "/" ++ basename thumbnail_file_path,
               timestamp_utc := env.nowTimestamp,
               timestamp_rfc822 := env.nowRfc822,
               episode_size := audio_file_size },
             [(audio_file_path,
               "audio/" ++ chat_id ++ "/" ++ basename audio_file_path),
              (thumbnail_file_path,
               "audio/" ++ chat_id ++ "/" ++ basename thumbnail_file_path)])

/-- `Downloader._create_cleansed_metadata`: the stored row, with `Keywords`
sliced to the first 250 entries and `TimestampUtc` stringified. -/
def createCleansedMetadata (chat_id : String) (upload_information : UploadInformation)
    (video_information : VideoInformation) : Episode :=
  { FeedId := chat_id,
    EpisodeId := video_information.video_id,
    Title := video_information.title,
    Author := video_information.author,
    Description := video_information.description,
    DurationInSeconds := video_information.duration_in_seconds,
    Keywords := video_information.keywords.take 250,
    FileLengthInByte := upload_information.episode_size,
    BucketPathEpisode := upload_information.path_to_episode,
    BucketPathThumbnail := upload_information.path_to_thumbnail,
    TimestampUtc := toString upload_information.timestamp_utc,
    TimestampRfc822 := upload_information.timestamp_rfc822 }

/-- A DynamoDB `put_item`: upserts the row under its (partition, sort) key. -/
def putItem (table : List Episode) (row : Episode) : List Episode :=
  table.filter (fun e =>
    !(e.FeedId == row.FeedId && e.TimestampUtc == row.TimestampUtc)) ++ [row]

/-- What a Downloader invocation produces: the returned dict, the table after
the call, the `put_item` calls, the bucket uploads, the files downloaded to
/tmp, and the telegram messages sent. -/
structure DownloaderOutcome where
  result : HandlerResult
  table : List Episode
  puts : List Episode
  uploads : List (String × String)
  downloads : List String
  sends : List String
deriving DecidableEq, Repr

/-- `Downloader.handle_event`: skips everything when the video id is already
stored for the feed; otherwise downloads audio and thumbnail, uploads both,
stores exactly one metadata row and reports PODCASTER; any exception degrades
to FAILURE. -/
def downloaderHandleEvent (env : DownloadEnv) (table : List Episode)
    (msg : List (String × String)) : DownloaderOutcome :=
  match parsePayload msg with
  | none =>
    { result := mkResult Status.FAILURE msg, table := table, puts := [],
      uploads := [], downloads := [], sends := [errorSend "TypeError"] }
  | some payload =>
    match env.populate payload.incoming_text with
    | .error e =>
      { result := mkResult Status.FAILURE msg, table := table, puts := [],
        uploads := [], downloads := [], sends := [errorSend e] }
    | .ok video_information =>
      if isExistingVideo table video_information payload.chat_id = [] then
        match env.downloadAudio video_information with
        | .error e =>
          { result := mkResult Status.FAILURE msg, table := table, puts := [],
            uploads := [], downloads := [],
            sends := ["...Downloading video.", errorSend e] }
        | .ok audio_file_path =>
          match env.downloadThumbnail video_information with
          | .error e =>
            { result := mkResult Status.FAILURE msg, table := table, puts := [],
              uploads := [], downloads := [audio_file_path],
              sends := ["...Downloading video.", errorSend e] }
          | .ok thumbnail_file_path =>
            match uploadToS3 env payload.chat_id audio_file_path thumbnail_file_path with
            | .error (e, partialUploads) =>
              { result := mkResult Status.FAILURE msg, table := table, puts := [],
                uploads := partialUploads,
                downloads := [audio_file_path, thumbnail_file_path],
                sends := ["...Downloading video.", errorSend e] }
            | .ok (upload_information, ups) =>
              let metadata := createCleansedMetadata payload.chat_id
                upload_information video_information
              { result := mkResult Status.PODCASTER msg,
                table := putItem table metadata, puts := [metadata],
                uploads := ups,
                downloads := [audio_file_path, thumbnail_file_path],
                sends := ["...Downloading video."] }
      else
        { result := mkResult Status.FINISH msg, table := table, puts := [],
          uploads := [], downloads := [],
          sends := ["...\x27" ++ video_information.title ++
            "\x27 is already in your cast. Skipping download."] }

/-- `_upload_to_s3` stamps the `UploadInformation` with the clock read
(`int(now.timestamp())`). -/
theorem uploadToS3_timestamp (env : DownloadEnv) (c a t : String)
    (ui : UploadInformation) (ups : List (String × String))
    (h : uploadToS3 env c a t = .ok (ui, ups)) :
    ui.timestamp_utc = env.nowTimestamp := by
  unfold uploadToS3 at h
  split at h
  · cases h
  · split at h
    · cases h
    · split at h
      · cases h
      · cases h
        rfl

/-- C4: with a parsed payload and extracted video information, when the feed
already stores the video id the Downloader returns FINISH and performs no
download, no upload and no `put_item` (table and bucket unchanged); when the
video is new and the downloads and uploads succeed, it writes exactly one
metadata row and returns PODCASTER. -/
theorem downloader_skip_and_store (env : DownloadEnv) (table : List Episode)
    (msg : List (String × String)) (p : Payload) (v : VideoInformation)
    (hp : parsePayload msg = some p)
    (hv : env.populate p.incoming_text = .ok v) :
    (isExistingVideo table v p.chat_id ≠ [] →
      (downloaderHandleEvent env table msg).result = mkResult Status.FINISH msg ∧
      (downloaderHandleEvent env table msg).table = table ∧
      (downloaderHandleEvent env table msg).puts = [] ∧
      (downloaderHandleEvent env table msg).uploads = [] ∧
      (downloaderHandleEvent env table msg).downloads = []) ∧
    (isExistingVideo table v p.chat_id = [] →
      ∀ a t ui ups, env.downloadAudio v = .ok a →
        env.downloadThumbnail v = .ok t →
        uploadToS3 env p.chat_id a t = .ok (ui, ups) →
        (downloaderHandleEvent env table msg).result = mkResult Status.PODCASTER msg ∧
        (downloaderHandleEvent env table msg).puts =
          [createCleansedMetadata p.chat_id ui v] ∧
        (downloaderHandleEvent env table msg).table =
          putItem table (createCleansedMetadata p.chat_id ui v)) := by
  constructor
  · intro hex
    simp [downloaderHandleEvent, hp, hv, hex]
  · intro hex a t ui ups ha ht hu
    simp [downloaderHandleEvent, hp, hv, hex, ha, ht, hu]

/-- The video information used for concrete Downloader evaluations. -/
def testVideo : VideoInformation :=
  { video_id := "abc", title := "T", author := "A", description := "D",
    thumbnail_url := "http://t/x.jpg", duration_in_seconds := 10,
    keywords := ["k1", "k2"], source_url := "https://youtu.be/abc" }

/-- A concrete fully-succeeding Downloader environment. -/
def testEnv : DownloadEnv :=
  { populate := fun _ => .ok testVideo,
    downloadAudio := fun v => .ok ("/tmp/" ++ v.video_id ++ ".mp4"),
    downloadThumbnail := fun v => .ok ("/tmp/" ++ v.video_id ++ "_logo.jpg"),
    fileSize := fun _ => .ok 5,
    upload := fun _ _ => .ok (),
    nowTimestamp := 1650000000,
    nowRfc822 := "Fri, 15 Apr 2022 05:20:00 -0000" }

/-- The upload information `testEnv` produces for `testVideo`. -/
def uiTest : UploadInformation :=
  { path_to_episode := "audio/123456/abc.mp4",
    path_to_thumbnail := "audio/123456/abc_logo.jpg",
    timestamp_utc := 1650000000,
    timestamp_rfc822 := "Fri, 15 Apr 2022 05:20:00 -0000",
    episode_size := 5 }

/-- A concrete Downloader event message carrying a video URL. -/
def msgUrl : List (String × String) :=
  [("sender_name", "n"), ("incoming_text", "https://youtu.be/abc"),
   ("chat_id", "123456")]

/-- Witness for `downloader_skip_and_store`: skip on the stored episode,
store exactly one row on the empty feed. -/
theorem downloader_skip_and_store_witness :
    ((downloaderHandleEvent testEnv [epAbc] msgUrl).result =
        mkResult Status.FINISH msgUrl ∧
      (downloaderHandleEvent testEnv [epAbc] msgUrl).puts = []) ∧
    ((downloaderHandleEvent testEnv [] msgUrl).result =
        mkResult Status.PODCASTER msgUrl ∧
      (downloaderHandleEvent testEnv [] msgUrl).puts =
        [createCleansedMetadata "123456" uiTest testVideo]) := by
  have h1 := (downloader_skip_and_store testEnv [epAbc] msgUrl
      ⟨"n", "https://youtu.be/abc", "123456"⟩ testVideo (by decide) rfl).1
    (by decide)
  have h2 := (downloader_skip_and_store testEnv [] msgUrl
      ⟨"n", "https://youtu.be/abc", "123456"⟩ testVideo (by decide) rfl).2
    (by decide) "/tmp/abc.mp4" "/tmp/abc_logo.jpg" uiTest
    [("/tmp/abc.mp4", "audio/123456/abc.mp4"),
     ("/tmp/abc_logo.jpg", "audio/123456/abc_logo.jpg")]
    rfl rfl rfl
  exact ⟨⟨h1.1, h1.2.2.1⟩, h2.1, h2.2.1⟩

/-- C10: the cleansed metadata keeps only the first 250 keywords and stores
the timestamp as its decimal string; hence every row the Downloader puts has
at most 250 keywords and the stringified upload timestamp. -/
theorem downloader_metadata_cleansed (env : DownloadEnv) (table : List Episode)
    (msg : List (String × String)) :
    (∀ chat_id u v,
      (createCleansedMetadata chat_id u v).Keywords = v.keywords.take 250 ∧
      (createCleansedMetadata chat_id u v).Keywords.length ≤ 250 ∧
      (createCleansedMetadata chat_id u v).TimestampUtc = toString u.timestamp_utc) ∧
    (∀ row ∈ (downloaderHandleEvent env table msg).puts,
      row.Keywords.length ≤ 250 ∧
      row.TimestampUtc = toString env.nowTimestamp) := by
  constructor
  · intro chat_id u v
    refine ⟨rfl, ?_, rfl⟩
    simp [createCleansedMetadata, List.length_take]
  · intro row hrow
    unfold downloaderHandleEvent at hrow
    split at hrow
    · simp at hrow
    · split at hrow
      · simp at hrow
      · split at hrow
        · split at hrow
          · simp at hrow
          · split at hrow
            · simp at hrow
            · split at hrow
              · simp at hrow
              · next upload_information ups hupl =>
                have hts := uploadToS3_timestamp _ _ _ _ _ _ hupl
                simp only [List.mem_singleton] at hrow
                subst hrow
                refine ⟨?_, ?_⟩
                · simp [createCleansedMetadata, List.length_take]
                · simp [createCleansedMetadata, hts]
        · simp at hrow

/-- Witness for `downloader_metadata_cleansed` at the row stored by the
concrete successful download. -/
theorem downloader_metadata_cleansed_witness :
    (createCleansedMetadata "123456" uiTest testVideo).Keywords.length ≤ 250 ∧
    (createCleansedMetadata "123456" uiTest testVideo).TimestampUtc =
      toString testEnv.nowTimestamp := by
  have hputs : (downloaderHandleEvent testEnv [] msgUrl).puts =
      [createCleansedMetadata "123456" uiTest testVideo] := rfl
  exact (downloader_metadata_cleansed testEnv [] msgUrl).2
    (createCleansedMetadata "123456" uiTest testVideo)
    (by rw [hputs]; exact List.mem_singleton.mpr rfl)

/-- The external world of the Podcaster: the jinja template render (of the
feed's episodes and feed url) and the S3 upload of the generated feed, plus
the CDN base url from the environment. -/
structure PodcastEnv where
  render : List Episode → String → Except String String
  upload : String → String → Except String Unit
  base_url : String

/-- `Podcaster.handle_event`: reads all metadata for the feed (newest first),
renders the RSS template, uploads `<chat_id>.rss`, and reports FINISH; any
exception degrades to FAILURE.  Returns the dict and the telegram sends. -/
def podcasterHandleEvent (env : PodcastEnv) (table : List Episode)
    (msg : List (String × String)) : HandlerResult × List String :=
  match parsePayload msg with
  | none => (mkResult Status.FAILURE msg, [errorSend "TypeError"])
  | some payload =>
    match env.render (queryEpisodes table payload.chat_id false)
        (env.base_url ++ "/" ++ payload.chat_id ++ ".rss") with
    | .error e => (mkResult Status.FAILURE msg, [errorSend e])
    | .ok feed_content =>
      match env.upload (payload.chat_id ++ ".rss") feed_content with
      | .error e => (mkResult Status.FAILURE msg, [errorSend e])
      | .ok _ =>
        (mkResult Status.FINISH msg,
         ["...Podcast feed generated and uploaded:\n                \n <a href=\"" ++
            env.base_url ++ "/" ++ payload.chat_id ++ ".rss" ++ "\">🎧 " ++
            env.base_url ++ "/" ++ payload.chat_id ++ ".rss" ++
            " 🎧</a>\n                "])

/-- The parsed JSON body of a Telegram webhook call, reduced to the three
access paths the Bouncer reads: `message.chat.id`, `message.from.first_name`
and `message.text`.  A `none` field models the key being absent (access
raises `KeyError`). -/
structure IncomingMessage where
  chat_id : Option Int
  first_name : Option String
  text : Option String
deriving DecidableEq, Repr

/-- The HTTP response of the Bouncer; `body_message` is the "message" field
of the JSON body built by `_get_return_message`. -/
structure BouncerResponse where
  statusCode : Int
  body_message : String
deriving DecidableEq, Repr

/-- `Bouncer._get_return_message` with its default status code. -/
def getReturnMessage (message : String) : BouncerResponse :=
  { statusCode := 200, body_message := message }

/-- `Bouncer._create_payload`: the normalized message dict passed to the
state machine. -/
def createPayload (first_name text chat_id_str : String) :
    List (String × String) :=
  [("sender_name", first_name), ("incoming_text", text),
   ("chat_id", chat_id_str)]

/-- `Bouncer.handle_event`: the event body (`none` models `json.loads`
raising) is checked against the single allow-listed chat id; on a mismatch
the `UnknownChatIdException` handler answers "403 - private bot"; any other
exception (missing keys) answers with the 500 text; otherwise the payload is
built and a state-machine execution started.  The second component lists the
executions started. -/
def bouncerHandleEvent (allowed_chat_id : String)
    (event_body : Option IncomingMessage) :
    BouncerResponse × List (List (String × String)) :=
  match event_body with
  | none =>
    (getReturnMessage ("500 - error processing incoming event: " ++
      "JSONDecodeError"), [])
  | some incoming_message =>
    match incoming_message.chat_id with
    | none =>
      (getReturnMessage ("500 - error processing incoming event: " ++
        "KeyError"), [])
    | some cid =>
      if toString cid ≠ allowed_chat_id then
        (getReturnMessage "403 - private bot", [])
      else
        match incoming_message.first_name, incoming_message.text with
        | some fn, some tx =>
          (getReturnMessage "Event received, state machine started.",
           [createPayload fn tx (toString cid)])
        | _, _ =>
          (getReturnMessage ("500 - error processing incoming event: " ++
            "KeyError"), [])

/-- A successor in the declarative state machine: a named `LambdaInvoke`
task, the `Succeed` state, or the `Fail` state. -/
inductive SfnNext where
  | task : String → SfnNext
  | succeed
  | fail
deriving DecidableEq, Repr

/-- A `Choice` state: `string_equals` conditions on `$.status` in order, with
an `.otherwise` fallback. -/
structure ChoiceState where
  whens : List (String × SfnNext)
  otherwiseNext : SfnNext
deriving DecidableEq, Repr

/-- Evaluates a `Choice` state on the `status` field of its input. -/
def evalChoice (c : ChoiceState) (status : String) : SfnNext :=
  match c.whens.find? (fun w => w.1 == status) with
  | some w => w.2
  | none => c.otherwiseNext

/-- The "Podcaster?" choice of `sauerpod_logic.py` (the stack deployed by
`app.py`). -/
def choice_podcaster : ChoiceState :=
  { whens := [("SUCCESS", .succeed)], otherwiseNext := .fail }

/-- The "Downloading Result?" choice of `sauerpod_logic.py`. -/
def choice_downloader : ChoiceState :=
  { whens := [("SUCCESS", .task "PodcasterTask"),
              ("NO_ACTION", .task "PodcasterTask")],
    otherwiseNext := .fail }

/-- The "Dispatching Result?" choice of `sauerpod_logic.py`. -/
def choice_dispatcher : ChoiceState :=
  { whens := [("FORWARD_TO_DOWNLOADER", .task "DownloaderTask"),
              ("UNKNOWN_MESSAGE", .succeed)],
    otherwiseNext := .fail }

/-- The "Dispatcher?" choice of `sauerpod_short_lived.py`. -/
def shortChoiceDispatcher : ChoiceState :=
  { whens := [("DOWNLOADER", .task "DownloaderTask"),
              ("UNKNOWN_MESSAGE", .succeed)],
    otherwiseNext := .fail }

/-- The "Downloader?" choice of `sauerpod_short_lived.py`. -/
def shortChoiceDownloader : ChoiceState :=
  { whens := [("SUCCESS", .succeed)], otherwiseNext := .fail }

/-- C5: the deployed state machine ignores every status the handlers emit —
the "Dispatching Result?" choice of `sauerpod_logic.py` sends both
"DOWNLOADER" and "COMMANDER" to the Fail state, none of its condition tokens
is a `Status` enum name, and no choice in either stack has a branch on
"COMMANDER" (there is no commander step at all). -/
theorem statemachine_drops_handler_statuses :
    evalChoice choice_dispatcher Status.DOWNLOADER.name = SfnNext.fail ∧
    evalChoice choice_dispatcher Status.COMMANDER.name = SfnNext.fail ∧
    (∀ t ∈ (choice_dispatcher.whens ++ choice_downloader.whens ++
        choice_podcaster.whens).map Prod.fst, t ∉ statusNames) ∧
    (∀ c ∈ [choice_dispatcher, choice_downloader, choice_podcaster,
        shortChoiceDispatcher, shortChoiceDownloader],
      ∀ w ∈ c.whens, w.1 ≠ "COMMANDER") ∧
    evalChoice shortChoiceDispatcher Status.COMMANDER.name = SfnNext.fail := by
  decide

/-- A webhook body whose chat id would be allowed but which lacks the
`message.from.first_name` key. -/
def badMsg : IncomingMessage :=
  { chat_id := some 42, first_name := none, text := some "hi" }

/-- C6 counterexample: the body parses and its stringified chat id equals the
allow-listed id "42", yet no state-machine execution is started — building
the payload raises `KeyError` on the missing sender name, so the claimed
"if and only if" fails. -/
theorem bouncer_start_iff_counterexample :
    (some badMsg ≠ (none : Option IncomingMessage)) ∧
    badMsg.chat_id = some 42 ∧ toString (42 : Int) = "42" ∧
    (bouncerHandleEvent "42" (some badMsg)).2 = [] ∧
    (bouncerHandleEvent "42" (some badMsg)).1.body_message ≠ "403 - private bot" := by
  decide

/-- C6 (amended): `Bouncer.handle_event` starts a state-machine execution iff
the body parses, the message carries a chat id whose string form equals the
allow-listed id, and the sender first name and text are present; whenever the
chat id differs from the allow-listed id, no execution is started and the
response body message is "403 - private bot". -/
theorem bouncer_start_conditions (allowed_chat_id : String)
    (event_body : Option IncomingMessage) :
    (((bouncerHandleEvent allowed_chat_id event_body).2 ≠ []) ↔
      (∃ m cid fn tx, event_body = some m ∧ m.chat_id = some cid ∧
        toString cid = allowed_chat_id ∧ m.first_name = some fn ∧
        m.text = some tx)) ∧
    (∀ m cid, event_body = some m → m.chat_id = some cid →
      toString cid ≠ allowed_chat_id →
      (bouncerHandleEvent allowed_chat_id event_body).2 = [] ∧
      (bouncerHandleEvent allowed_chat_id event_body).1.body_message =
        "403 - private bot") := by
  constructor
  · constructor
    · intro hne
      rcases event_body with _ | ⟨cid, fn, tx⟩
      · exact absurd rfl hne
      · rcases cid with _ | cid
        · exact absurd rfl hne
        · by_cases heq : toString cid = allowed_chat_id
          · rcases fn with _ | fn
            · rw [show (bouncerHandleEvent allowed_chat_id
                  (some ⟨some cid, none, tx⟩)).2 = [] by
                    simp [bouncerHandleEvent, heq]] at hne
              exact absurd rfl hne
            · rcases tx with _ | tx
              · rw [show (bouncerHandleEvent allowed_chat_id
                    (some ⟨some cid, some fn, none⟩)).2 = [] by
                      simp [bouncerHandleEvent, heq]] at hne
                exact absurd rfl hne
              · exact ⟨⟨some cid, some fn, some tx⟩, cid, fn, tx, rfl, rfl,
                  heq, rfl, rfl⟩
          · rw [show (bouncerHandleEvent allowed_chat_id
                (some ⟨some cid, fn, tx⟩)).2 = [] by
                  simp [bouncerHandleEvent, heq]] at hne
            exact absurd rfl hne
    · rintro ⟨m, cid, fn, tx, rfl, hcid, heq, hfn, htx⟩
      simp [bouncerHandleEvent, hcid, heq, hfn, htx, createPayload]
  · rintro m cid rfl hcid hne
    simp [bouncerHandleEvent, hcid, hne, getReturnMessage]

/-- The webhook body of a sender who is not allow-listed. -/
def rejectedMsg : IncomingMessage :=
  { chat_id := some 7, first_name := some "n", text := some "hi" }

/-- Witness for `bouncer_start_conditions`: the rejected chat id "7" against
the allow-listed "42". -/
theorem bouncer_start_conditions_witness :
    (bouncerHandleEvent "42" (some rejectedMsg)).2 = [] ∧
    (bouncerHandleEvent "42" (some rejectedMsg)).1.body_message =
      "403 - private bot" := by
  exact (bouncer_start_conditions "42" (some rejectedMsg)).2 rejectedMsg 7
    rfl rfl (by decide)

/-- C7: every outcome of `Bouncer.handle_event` — started execution, rejected
chat id, or any processing error — answers with status code 200. -/
theorem bouncer_always_returns_200 (allowed_chat_id : String)
    (event_body : Option IncomingMessage) :
    (bouncerHandleEvent allowed_chat_id event_body).1.statusCode = 200 := by
  rcases event_body with _ | ⟨cid, fn, tx⟩
  · rfl
  · rcases cid with _ | cid
    · rfl
    · by_cases heq : toString cid ≠ allowed_chat_id
      · simp [bouncerHandleEvent, heq, getReturnMessage]
      · rcases fn with _ | fn <;> rcases tx with _ | tx <;>
          simp [bouncerHandleEvent, heq, getReturnMessage]

/-- Every Dispatcher return value is a status dict for the unchanged
message. -/
theorem dispatcher_shape (msg : List (String × String)) :
    ∃ st : Status, (dispatcherHandleEvent msg).1 = mkResult st msg := by
  unfold dispatcherHandleEvent
  split
  · split
    · exact ⟨Status.DOWNLOADER, rfl⟩
    · split
      · exact ⟨Status.COMMANDER, rfl⟩
      · exact ⟨Status.FINISH, rfl⟩
  · exact ⟨Status.FAILURE, rfl⟩

/-- Every Downloader return value is a status dict for the unchanged
message. -/
theorem downloader_shape (env : DownloadEnv) (table : List Episode)
    (msg : List (String × String)) :
    ∃ st : Status, (downloaderHandleEvent env table msg).result = mkResult st msg := by
  unfold downloaderHandleEvent
  repeat' split
  all_goals exact ⟨_, rfl⟩

/-- Every normal Commander return value is a status dict for the unchanged
message. -/
theorem commander_shape (base_url : String) (table : List Episode) (now : Int)
    (msg : List (String × String)) (out : CommanderOutcome)
    (h : commanderHandleEvent base_url table now msg = some out) :
    ∃ st : Status, out.result = mkResult st msg := by
  unfold commanderHandleEvent at h
  split at h
  · cases h; exact ⟨Status.FAILURE, rfl⟩
  · cases h; exact ⟨_, rfl⟩
  · cases h

/-- Every Podcaster return value is a status dict for the unchanged
message. -/
theorem podcaster_shape (env : PodcastEnv) (table : List Episode)
    (msg : List (String × String)) :
    ∃ st : Status, (podcasterHandleEvent env table msg).1 = mkResult st msg := by
  unfold podcasterHandleEvent
  repeat' split
  all_goals exact ⟨_, rfl⟩

/-- Every status name is one of the five enum names. -/
theorem status_name_mem (st : Status) : st.name ∈ statusNames := by
  cases st <;> simp [statusNames, Status.name]

/-- C8: whenever a step handler returns normally, the returned dict carries
exactly a `status` that is one of the five enum names and the unchanged input
`message`. -/
theorem handler_returns_status_and_message (msg : List (String × String))
    (table : List Episode) (denv : DownloadEnv) (penv : PodcastEnv)
    (base_url : String) (now : Int) :
    ((dispatcherHandleEvent msg).1.status ∈ statusNames ∧
      (dispatcherHandleEvent msg).1.message = msg) ∧
    ((downloaderHandleEvent denv table msg).result.status ∈ statusNames ∧
      (downloaderHandleEvent denv table msg).result.message = msg) ∧
    (∀ out : CommanderOutcome,
      commanderHandleEvent base_url table now msg = some out →
      out.result.status ∈ statusNames ∧ out.result.message = msg) ∧
    ((podcasterHandleEvent penv table msg).1.status ∈ statusNames ∧
      (podcasterHandleEvent penv table msg).1.message = msg) := by
  obtain ⟨s1, h1⟩ := dispatcher_shape msg
  obtain ⟨s2, h2⟩ := downloader_shape denv table msg
  obtain ⟨s4, h4⟩ := podcaster_shape penv table msg
  refine ⟨⟨?_, ?_⟩, ⟨?_, ?_⟩, ?_, ⟨?_, ?_⟩⟩
  · rw [h1]; exact status_name_mem s1
  · rw [h1]; rfl
  · rw [h2]; exact status_name_mem s2
  · rw [h2]; rfl
  · intro out hout
    obtain ⟨s3, h3⟩ := commander_shape base_url table now msg out hout
    rw [h3]
    exact ⟨status_name_mem s3, rfl⟩
  · rw [h4]; exact status_name_mem s4
  · rw [h4]; rfl

/-- A concrete `/help` event message. -/
def msgHelp : List (String × String) :=
  [("sender_name", "n"), ("incoming_text", "/help"), ("chat_id", "1")]

/-- A concrete fully-succeeding Podcaster environment. -/
def podTestEnv : PodcastEnv :=
  { render := fun _ _ => .ok "<rss/>", upload := fun _ _ => .ok (),
    base_url := "https://d.example" }

/-- The Commander outcome of the concrete `/help` event. -/
def outHelp : CommanderOutcome :=
  { result := mkResult Status.FINISH msgHelp, table := [], bucketDeletes := [],
    sends := [helpText] }

/-- Witness for `handler_returns_status_and_message`, discharging the
Commander hypothesis at the concrete `/help` event. -/
theorem handler_returns_status_and_message_witness :
    outHelp.result.status ∈ statusNames ∧ outHelp.result.message = msgHelp := by
  exact (handler_returns_status_and_message msgHelp [] testEnv podTestEnv
    "base" 0).2.2.1 outHelp (by decide)

/-- Appending to a `String.mk` concatenates the character lists. -/
theorem mk_append_toList (l : List Char) (t : String) :
    (String.mk l ++ t).toList = l ++ t.toList := by
  cases t
  rfl

/-- C9: in compact listing mode (a list command not ending in "full") the
rendered title is at most 27 characters — a stored title longer than 27
characters becomes its first 25 characters followed by ".." and a shorter
title is rendered verbatim — while in full mode every title is rendered
verbatim. -/
theorem compact_list_title (command : String) (episode : Episode)
    (hc : pyEndsWith command "full" = false) :
    ((lineItemTitle episode.Title (!(pyEndsWith command "full"))).toList.length ≤ 27 ∧
      (episode.Title.toList.length > 27 →
        lineItemTitle episode.Title (!(pyEndsWith command "full")) =
          String.mk (episode.Title.toList.take 25) ++ "..") ∧
      (episode.Title.toList.length ≤ 27 →
        lineItemTitle episode.Title (!(pyEndsWith command "full")) =
          episode.Title)) ∧
    (∀ cfull : String, pyEndsWith cfull "full" = true →
      lineItemTitle episode.Title (!(pyEndsWith cfull "full")) = episode.Title) := by
  simp only [hc, Bool.not_false]
  constructor
  · refine ⟨?_, ?_, ?_⟩
    · unfold lineItemTitle
      split
      · rw [mk_append_toList]
        simp [List.length_append, List.length_take]
      · next hcond =>
        by_contra hgt
        push_neg at hgt
        exact hcond ⟨hgt, rfl⟩
    · intro hgt
      unfold lineItemTitle
      rw [if_pos ⟨hgt, rfl⟩]
    · intro hle
      unfold lineItemTitle
      rw [if_neg (fun hand => absurd hand.1 (by omega))]
  · intro cfull hfull
    simp only [hfull, Bool.not_true]
    unfold lineItemTitle
    rw [if_neg (by simp)]

/-- The stored episode with a 30-character title. -/
def longTitleEp : Episode :=
  { epAbc with Title := "123456789012345678901234567890" }

/-- Witness for `compact_list_title` at the stored 30-character title under
the compact "/list" command. -/
theorem compact_list_title_witness :
    (lineItemTitle longTitleEp.Title (!(pyEndsWith "/list" "full"))).toList.length ≤ 27 ∧
    lineItemTitle longTitleEp.Title (!(pyEndsWith "/list" "full")) =
      "1234567890123456789012345.." := by
  have h := compact_list_title "/list" longTitleEp (by decide)
  refine ⟨h.1.1, ?_⟩
  rw [h.1.2.1 (by decide)]
  decide
